import Mathlib

/-!
Verification of the protokoll JARM envelope and JOSE key-material layer.

The definitions below are a shallow embedding of:
* `src/packages/jarm/src/jarm-auth-response/jarm-auth-response.ts`
  (`parseJarmAuthResponseParams`, `decryptJarmAuthResponse`,
  `jarmAuthResponseDirectPostJwtValidate`),
* the `jarmAuthResponseEncryptedValidate` helper shipped next to its tests,
* the JOSE export/generate/X.509 helpers in `src/unnamed/part_002`
  (`genericExport`, `toSPKI`, `toPKCS8`, `getModulusLengthOption`,
  `generateKeyPair`, `parseElement`, `getElement`, `spkiFromX509`).

TypeScript effects are made explicit: fallible code returns `Except`,
host capabilities (`ctx.jose.jwe.decryptCompact`, `ctx.jose.jws.verifyJwt`,
`ctx.openid4vp.authRequest.getParams`, `JSON.parse`) are oracle functions in a
context record, and every capability invocation is recorded in an explicit
trace (a `List Step`) threaded through the computation, so that claims of the
form "X is never invoked" are statements about the trace.

Helpers of this repository that are not under `src/` (`isJwe`, `isJws`, the
valibot schemas, the state-comparing validator, base64) are modelled from the
spec; each such definition says so in its doc comment.
-/

/-- A JSON value, the dynamic data that JARM response parameters and JWT
payloads are made of.  Numbers are modelled as integers (the only numeric
field the schemas touch is the integral `exp`). -/
inductive JsonValue where
  | str (s : String)
  | num (n : Int)
  | bool (b : Bool)
  | null
  | arr (elems : List JsonValue)
  | obj (fields : List (String × JsonValue))

/-- Looks a key up in the field list of a JSON object (first match wins,
like JavaScript property access on the parsed object). -/
def lookupField : List (String × JsonValue) → String → Option JsonValue
  | [], _ => none
  | (k', v) :: rest, k => if k' = k then some v else lookupField rest k

/-- Member access `j[k]` on a JSON value: a lookup when `j` is an object,
`undefined` (here `none`) otherwise. -/
def jsonGet (j : JsonValue) (k : String) : Option JsonValue :=
  match j with
  | .obj fields => lookupField fields k
  | _ => none

/-- The distinct error outcomes of the embedded code.  Each constructor
stands for one throw site:
* `jweMissingKid`: `JarmAuthResponseValidationError`
  "Jarm JWE is missing the protected header field 'kid'."
* `jwsMissingKid`: `JarmAuthResponseValidationError`
  "Jarm JWS is missing the protected header field 'kid'."
* `notSignedOrEncrypted`: `JarmAuthResponseValidationError`
  "Jarm Auth Response must be either encrypted, signed, or signed and encrypted."
* `stateMismatch`: the state-comparison failure
  ("State missmatch between auth request ... and the jarm-auth-response.")
* `receivedErrorResponse`: `JarmReceivedErrorResponse`
  "Received error response from authorization server. ..."
* `schemaParseError`: a valibot `v.parse` failure (missing or ill-typed member)
* `capabilityFailure`: an error raised by an injected host capability
  (decryption, signature verification, request lookup, `JSON.parse`). -/
inductive JarmError where
  | jweMissingKid
  | jwsMissingKid
  | notSignedOrEncrypted
  | stateMismatch
  | receivedErrorResponse
  | schemaParseError
  | capabilityFailure
deriving DecidableEq, Repr

/-- Trace marker for each capability or validation step the JARM state machine
can invoke; the embedding appends a marker at the exact program point where the
source performs the call. -/
inductive Step where
  | decryptCompact
  | jsonParse
  | schemaParse
  | getParams
  | verifyJwt
  | validateParams
deriving DecidableEq, Repr

/-- The JOSE protected header, reduced to the single field the JARM code
consults (`decodeProtectedHeader(...).kid`). -/
structure ProtectedHeader where
  kid : Option String

/-- JavaScript truthiness of the optional `kid` header field: `!kid` is true
when the field is absent or the empty string. -/
def jsFalsyKid : Option String → Bool
  | none => true
  | some s => s.isEmpty

/-- Characters allowed in a base64url segment of a compact JOSE
serialization. -/
def isBase64UrlChar (c : Char) : Bool :=
  c.isAlphanum || c == '-' || c == '_'

/-- Splits a character list at every `'.'`; `splitDots "a.b".data` is
`[['a'], ['b']]`, mirroring `String.prototype.split('.')`. -/
def splitDots : List Char → List (List Char)
  | [] => [[]]
  | c :: rest =>
    if c = '.' then [] :: splitDots rest
    else
      match splitDots rest with
      | [] => [[c]]
      | seg :: segs => (c :: seg) :: segs

/-- Modelled from the spec: `isJwe` from `@protokoll/jose` (the package is not
under `src/`).  "Detect form by leading segments: 5 base64url segments →
JWE (encrypted)." -/
def isJwe (response : String) : Bool :=
  let segments := splitDots response.data
  segments.length == 5 && segments.all (fun seg => seg.all isBase64UrlChar)

/-- Modelled from the spec: `isJws` from `@protokoll/jose` (the package is not
under `src/`).  "3 base64url segments → JWS (signed)." -/
def isJws (response : String) : Bool :=
  let segments := splitDots response.data
  segments.length == 3 && segments.all (fun seg => seg.all isBase64UrlChar)

/-- The JARM direct_post.jwt response parameters, as produced by the valibot
schema: `vp_token` is required, `presentation_submission` is `v.unknown()`
(absent allowed), `iss`/`aud`/`exp`/`state`/`nonce` are optional. -/
structure JarmResponseParams where
  vp_token : String
  presentation_submission : Option JsonValue
  state : Option String
  iss : Option String
  aud : Option String
  exp : Option Int
  nonce : Option String

/-- The authorization-request parameters (`vAuthRequestParams` in
`c-jarm-auth-response.ts`): `state` and `response_mode` optional,
`client_id` and `response_type` required; `client_metadata` is kept as an
opaque JSON blob since the JARM validation never inspects it. -/
structure AuthRequestParams where
  state : Option String
  response_mode : Option String
  client_id : String
  response_type : String
  client_metadata : JsonValue

/-- Reads a required string member of a JSON object (valibot `v.string()`). -/
def reqStr (j : JsonValue) (k : String) : Except JarmError String :=
  match jsonGet j k with
  | some (.str s) => .ok s
  | _ => .error .schemaParseError

/-- Reads an optional string member (valibot `v.optional(v.string())`). -/
def optStr (j : JsonValue) (k : String) : Except JarmError (Option String) :=
  match jsonGet j k with
  | none => .ok none
  | some (.str s) => .ok (some s)
  | some _ => .error .schemaParseError

/-- Reads an optional numeric member (valibot `v.optional(v.number())`). -/
def optNum (j : JsonValue) (k : String) : Except JarmError (Option Int) :=
  match jsonGet j k with
  | none => .ok none
  | some (.num n) => .ok (some n)
  | some _ => .error .schemaParseError

/-- Modelled from the spec: the valibot schema `vJarmDirectPostJwtParams`
(defined in `v-jarm-direct-post-jwt-auth-response-params.ts`, which is not
under `src/`).  Shaped after the sibling in-repo schema
`vJarmAuthResponseEncrypted`: a loose object with required `vp_token`,
`presentation_submission` as `v.unknown()`, and optional
`iss`/`aud`/`exp`/`state`/`nonce`. -/
def vJarmDirectPostJwtParams (j : JsonValue) : Except JarmError JarmResponseParams :=
  match j with
  | .obj _ => do
    let vp_token ← reqStr j "vp_token"
    let presentation_submission := jsonGet j "presentation_submission"
    let state ← optStr j "state"
    let iss ← optStr j "iss"
    let aud ← optStr j "aud"
    let exp ← optNum j "exp"
    let nonce ← optStr j "nonce"
    pure { vp_token, presentation_submission, state, iss, aud, exp, nonce }
  | _ => .error .schemaParseError

/-- Valibot's `v.required(schema, keys)` wrapper: parsing fails unless every
listed key is present, then defers to the base schema. -/
def vRequired (keys : List String)
    (schema : JsonValue → Except JarmError JarmResponseParams)
    (j : JsonValue) : Except JarmError JarmResponseParams :=
  if keys.all (fun k => (jsonGet j k).isSome) then schema j
  else .error .schemaParseError

/-- Modelled from the spec: `vJarmAuthResponseErrorParams` (not under `src/`).
"If response carries error params (`error`, `error_description`, ...)": the
response object has an `error` string member. -/
def isErrorParams (j : JsonValue) : Bool :=
  match jsonGet j "error" with
  | some (.str _) => true
  | _ => false

/-- Embeds `parseJarmAuthResponseParams` (jarm-auth-response.ts, lines 32-47):
if the response params match the error-params shape, throw
`JarmReceivedErrorResponse`; otherwise run `v.parse(schema, responseParams)`.
The trace records the `v.parse` call as `Step.schemaParse`. -/
def parseJarmAuthResponseParams
    (schema : JsonValue → Except JarmError JarmResponseParams)
    (responseParams : JsonValue) (tr : List Step) :
    Except JarmError JarmResponseParams × List Step :=
  if isErrorParams responseParams then
    (.error .receivedErrorResponse, tr)
  else
    (schema responseParams, tr ++ [Step.schemaParse])

/-- Embeds `jarmAuthResponseEncryptedValidate` (shipped in the repository next
to the jarm-auth-response tests): throws a state-mismatch validation error
when `authRequest.state !== authResponse.state`. -/
def jarmAuthResponseEncryptedValidate (authRequestState : Option String)
    (authResponse : JarmResponseParams) : Except JarmError Unit :=
  if authRequestState ≠ authResponse.state then .error .stateMismatch
  else .ok ()

/-- Modelled from the spec: `jarmAuthResponseDirectPostValidateParams`
(defined in `v-jarm-direct-post-jwt-auth-response-params.ts`, not under
`src/`).  "validate ... enforces `authRequest.state === authResponse.state`
(mismatch → `StateMismatch`)"; it matches the in-repo
`jarmAuthResponseEncryptedValidate` check. -/
def jarmAuthResponseDirectPostValidateParams (authRequestParams : AuthRequestParams)
    (authResponseParams : JarmResponseParams) : Except JarmError Unit :=
  if authRequestParams.state ≠ authResponseParams.state then .error .stateMismatch
  else .ok ()

/-- The JOSE operations the validation context provides.
`decodeProtectedHeader` and `decodeJwt` are the pure decoding helpers of
`@protokoll/jose` (not under `src/`, hence oracle functions);
`decryptCompact` and `verifyJwt` are the injected host capabilities
`ctx.jose.jwe.decryptCompact` and `ctx.jose.jws.verifyJwt`, each receiving the
compact serialization and the `kid` the source puts into the resolution
JWK `{ kid, kty: 'auto' }`. -/
structure JoseOps where
  decodeProtectedHeader : String → ProtectedHeader
  decodeJwt : String → JsonValue
  decryptCompact : String → String → Except JarmError String
  verifyJwt : String → String → Except JarmError Unit

/-- The OpenID4VP side of the context: `ctx.openid4vp.authRequest.getParams`,
which looks the original authorization request up by the response's `state`
and returns `{ authRequestParams }`. -/
structure Openid4vpOps where
  getParams : JarmResponseParams → Except JarmError AuthRequestParams

/-- The full validation context handed to
`jarmAuthResponseDirectPostJwtValidate`, plus the `JSON.parse` builtin used on
the decrypted plaintext of an encrypted-only response. -/
structure JarmCtx where
  jose : JoseOps
  openid4vp : Openid4vpOps
  jsonParse : String → Except JarmError JsonValue

/-- Embeds `decryptJarmAuthResponse` (jarm-auth-response.ts, lines 49-68):
decode the protected header, fail when `kid` is falsy, otherwise call the
`decryptCompact` capability (recorded in the trace) and return the
plaintext. -/
def decryptJarmAuthResponse (ctx : JarmCtx) (response : String) (tr : List Step) :
    Except JarmError String × List Step :=
  let responseProtectedHeader := ctx.jose.decodeProtectedHeader response
  if jsFalsyKid responseProtectedHeader.kid then
    (.error .jweMissingKid, tr)
  else
    let tr' := tr ++ [Step.decryptCompact]
    match ctx.jose.decryptCompact response (responseProtectedHeader.kid.getD "") with
    | .error e => (.error e, tr')
    | .ok plaintext => (.ok plaintext, tr')

/-- The signed branch of `jarmAuthResponseDirectPostJwtValidate`
(jarm-auth-response.ts, lines 97-116): decode header and payload, parse the
payload against the schema with `iss`/`aud`/`exp` required, fetch the
auth-request params, fail when the JWS `kid` is falsy, then verify the
signature.  Returns the source's locals
`(responseIsEncrypted, responseIsSigned, authResponseParams, authRequestParams)`. -/
def jarmSignedBranch (ctx : JarmCtx) (decryptedResponse : String)
    (responseIsEncrypted : Bool) (tr : List Step) :
    Except JarmError (Bool × Bool × JarmResponseParams × AuthRequestParams) × List Step :=
  let jwsProtectedHeader := ctx.jose.decodeProtectedHeader decryptedResponse
  let jwsPayload := ctx.jose.decodeJwt decryptedResponse
  match parseJarmAuthResponseParams (vRequired ["iss", "aud", "exp"] vJarmDirectPostJwtParams)
      jwsPayload tr with
  | (.error e, tr') => (.error e, tr')
  | (.ok responseParams, tr') =>
    let tr'' := tr' ++ [Step.getParams]
    match ctx.openid4vp.getParams responseParams with
    | .error e => (.error e, tr'')
    | .ok authRequestParams =>
      if jsFalsyKid jwsProtectedHeader.kid then
        (.error .jwsMissingKid, tr'')
      else
        let tr''' := tr'' ++ [Step.verifyJwt]
        match ctx.jose.verifyJwt decryptedResponse (jwsProtectedHeader.kid.getD "") with
        | .error e => (.error e, tr''')
        | .ok _ => (.ok (responseIsEncrypted, true, responseParams, authRequestParams), tr''')

/-- The encrypted-only branch of `jarmAuthResponseDirectPostJwtValidate`
(jarm-auth-response.ts, lines 117-125): `JSON.parse` the plaintext, parse it
against the plain schema (no required `iss`/`aud`/`exp`), fetch the
auth-request params. -/
def jarmEncryptedOnlyBranch (ctx : JarmCtx) (decryptedResponse : String)
    (responseIsEncrypted : Bool) (tr : List Step) :
    Except JarmError (Bool × Bool × JarmResponseParams × AuthRequestParams) × List Step :=
  let tr' := tr ++ [Step.jsonParse]
  match ctx.jsonParse decryptedResponse with
  | .error e => (.error e, tr')
  | .ok jsonResponse =>
    match parseJarmAuthResponseParams vJarmDirectPostJwtParams jsonResponse tr' with
    | (.error e, tr'') => (.error e, tr'')
    | (.ok authResponseParams, tr'') =>
      let tr''' := tr'' ++ [Step.getParams]
      match ctx.openid4vp.getParams authResponseParams with
      | .error e => (.error e, tr''')
      | .ok authRequestParams =>
        (.ok (responseIsEncrypted, false, authResponseParams, authRequestParams), tr''')

/-- The envelope detection and parameter-gathering phase of
`jarmAuthResponseDirectPostJwtValidate` (jarm-auth-response.ts, lines 79-125):
detect JWE, decrypt if needed, reject a response that is neither encrypted nor
signed, then run the signed or encrypted-only branch.  The source keeps the
gathered values in the locals `authResponseParams` / `authRequestParams`;
here they are returned together with the two envelope flags. -/
def jarmGatherParams (ctx : JarmCtx) (response : String) :
    Except JarmError (Bool × Bool × JarmResponseParams × AuthRequestParams) × List Step :=
  let responseIsEncrypted := isJwe response
  match (if responseIsEncrypted then decryptJarmAuthResponse ctx response []
         else (.ok response, ([] : List Step))) with
  | (.error e, tr) => (.error e, tr)
  | (.ok decryptedResponse, tr) =>
    let responseIsSigned := isJws decryptedResponse
    if !responseIsEncrypted && !responseIsSigned then
      (.error .notSignedOrEncrypted, tr)
    else if responseIsSigned then
      jarmSignedBranch ctx decryptedResponse responseIsEncrypted tr
    else
      jarmEncryptedOnlyBranch ctx decryptedResponse responseIsEncrypted tr

/-- The successful result of `jarmAuthResponseDirectPostJwtValidate`:
`{ authRequestParams, authResponseParams, type }` with
`type ∈ {"signed", "encrypted", "signed encrypted"}`. -/
structure ValidatedJarmResponse where
  authRequestParams : AuthRequestParams
  authResponseParams : JarmResponseParams
  type : String

/-- Embeds `jarmAuthResponseDirectPostJwtValidate` (jarm-auth-response.ts,
lines 75-142): gather the parameters, run
`jarmAuthResponseDirectPostValidateParams`, then compute the envelope `type`
exactly as the source conditional does. -/
def jarmAuthResponseDirectPostJwtValidate (ctx : JarmCtx) (response : String) :
    Except JarmError ValidatedJarmResponse × List Step :=
  match jarmGatherParams ctx response with
  | (.error e, tr) => (.error e, tr)
  | (.ok (responseIsEncrypted, responseIsSigned, authResponseParams, authRequestParams), tr) =>
    let tr' := tr ++ [Step.validateParams]
    match jarmAuthResponseDirectPostValidateParams authRequestParams authResponseParams with
    | .error e => (.error e, tr')
    | .ok _ =>
      let type := if responseIsSigned && responseIsEncrypted then "signed encrypted"
        else if responseIsEncrypted then "encrypted"
        else "signed"
      (.ok { authRequestParams, authResponseParams, type }, tr')

/-- The plaintext the validation works on: the decryption result for a JWE
input (the dummy `""` in the unreachable failing case), the response itself
otherwise. -/
def jarmDecryptedOf (ctx : JarmCtx) (response : String) : String :=
  if isJwe response then
    match (decryptJarmAuthResponse ctx response []).1 with
    | .ok plaintext => plaintext
    | .error _ => ""
  else response

/-- A WebCrypto `CryptoKey`, reduced to the two attributes `genericExport`
inspects: `type` (`"public"`, `"private"` or `"secret"`) and `extractable`. -/
structure CryptoKey where
  type : String
  extractable : Bool
deriving DecidableEq, Repr

/-- The export routine's failure: every throw site in `genericExport` raises a
JavaScript `TypeError` carrying the given message. -/
inductive ExportError where
  | typeError (message : String)
deriving DecidableEq, Repr

/-- Modelled from the spec: `formatPEM` from the JOSE package (not under
`src/`) wraps a base64 body in `BEGIN`/`END` descriptor lines ("PEM for keys
and certs"). -/
def formatPEM (b64 : String) (descriptor : String) : String :=
  "-----BEGIN " ++ descriptor ++ "-----\n" ++ b64 ++ "\n-----END " ++ descriptor ++ "-----"

/-- Embeds `genericExport` (`src/unnamed/part_002`, lines 18-47).  The
`isCryptoKey` guard is enforced by typing in this embedding; the remaining
checks and their `TypeError` messages are verbatim.  The host capability
`ctx.crypto.subtle.exportKey` is the `exportKey` oracle, returning the base64
body passed on to `formatPEM`. -/
def genericExport (exportKey : String → CryptoKey → String)
    (keyType keyFormat : String) (key : CryptoKey) : Except ExportError String :=
  if !key.extractable then
    .error (.typeError "CryptoKey is not extractable")
  else if key.type ≠ keyType then
    .error (.typeError ("key is not a " ++ keyType ++ " key"))
  else
    .ok (formatPEM (exportKey keyFormat key) (keyType.toUpper ++ " KEY"))

/-- Embeds `toSPKI` (`src/unnamed/part_002`): exports with
`keyType: 'public', keyFormat: 'spki'`. -/
def toSPKI (exportKey : String → CryptoKey → String) (key : CryptoKey) :
    Except ExportError String :=
  genericExport exportKey "public" "spki" key

/-- Embeds `toPKCS8` (`src/unnamed/part_002`, lines 59-67): the source passes
`keyType: 'public'` (not `'private'`) together with `keyFormat: 'pkcs8'`. -/
def toPKCS8 (exportKey : String → CryptoKey → String) (key : CryptoKey) :
    Except ExportError String :=
  genericExport exportKey "public" "pkcs8" key

/-- The value of the `modulusLength` option as JavaScript sees it: a number,
or some value of any other runtime type (the source guards with
`typeof modulusLength !== 'number'`). -/
inductive JsOpt where
  | num (n : Int)
  | other
deriving DecidableEq, Repr

/-- The options accepted by `generateKeyPair`
(`GenerateKeyPairOptions`: `modulusLength?`, `crv?`, `extractable?`). -/
structure GenerateKeyPairOptions where
  modulusLength : Option JsOpt := none
  crv : Option String := none
  extractable : Option Bool := none
deriving DecidableEq, Repr

/-- The errors of the key-generation dispatch in `src/unnamed/part_002`:
* `invalidModulusLength`: "Invalid or unsupported modulusLength option
  provided, 2048 bits or larger keys must be used"
* `invalidCrv`: "Invalid or unsupported crv option provided"
* `unsupportedAlg`: "Invalid or unsupported JWK \"alg\" (Algorithm)
  Parameter value". -/
inductive KeyGenError where
  | invalidModulusLength
  | invalidCrv
  | unsupportedAlg
deriving DecidableEq, Repr

/-- The algorithm object handed to `ctx.crypto.subtle.generateKey`:
RSA variants carry the hash and modulus length (the public exponent is the
constant `[0x01, 0x00, 0x01]` in every RSA case), EC variants carry the named
curve, OKP variants only the curve name. -/
inductive KeyGenAlgorithm where
  | rsa (name hash : String) (modulusLength : Int)
  | ec (name namedCurve : String)
  | okp (name : String)
deriving DecidableEq, Repr

/-- Everything `generateKeyPair` passes to `ctx.crypto.subtle.generateKey`:
the algorithm object, the key usages, and the extractability flag
(`extractable ?? false`). -/
structure KeyGenSpec where
  algorithm : KeyGenAlgorithm
  keyUsages : List String
  extractable : Bool
deriving DecidableEq, Repr

/-- Embeds `getModulusLengthOption` (`src/unnamed/part_002`, lines 377-385):
default the option to 2048, then reject a non-number or a number below
2048. -/
def getModulusLengthOption (options : GenerateKeyPairOptions) : Except KeyGenError Int :=
  let modulusLength := options.modulusLength.getD (.num 2048)
  match modulusLength with
  | .num n => if n < 2048 then .error .invalidModulusLength else .ok n
  | .other => .error .invalidModulusLength

/-- Embeds `generateKeyPair` (`src/unnamed/part_002`, lines 387-496): the
algorithm dispatch switch.  String computations of the source
(`SHA-${alg.slice(-3)}`, `SHA-${parseInt(alg.slice(-3), 10) || 1}`) are
evaluated per case; for bare `RSA-OAEP` the `parseInt` yields `NaN`, so
`|| 1` selects `SHA-1`. -/
def generateKeyPair (alg : String) (input : GenerateKeyPairOptions) :
    Except KeyGenError KeyGenSpec :=
  let ext := input.extractable.getD false
  match alg with
  | "PS256" => do
    let m ← getModulusLengthOption input
    pure { algorithm := .rsa "RSA-PSS" "SHA-256" m, keyUsages := ["sign", "verify"], extractable := ext }
  | "PS384" => do
    let m ← getModulusLengthOption input
    pure { algorithm := .rsa "RSA-PSS" "SHA-384" m, keyUsages := ["sign", "verify"], extractable := ext }
  | "PS512" => do
    let m ← getModulusLengthOption input
    pure { algorithm := .rsa "RSA-PSS" "SHA-512" m, keyUsages := ["sign", "verify"], extractable := ext }
  | "RS256" => do
    let m ← getModulusLengthOption input
    pure { algorithm := .rsa "RSASSA-PKCS1-v1_5" "SHA-256" m, keyUsages := ["sign", "verify"], extractable := ext }
  | "RS384" => do
    let m ← getModulusLengthOption input
    pure { algorithm := .rsa "RSASSA-PKCS1-v1_5" "SHA-384" m, keyUsages := ["sign", "verify"], extractable := ext }
  | "RS512" => do
    let m ← getModulusLengthOption input
    pure { algorithm := .rsa "RSASSA-PKCS1-v1_5" "SHA-512" m, keyUsages := ["sign", "verify"], extractable := ext }
  | "RSA-OAEP" => do
    let m ← getModulusLengthOption input
    pure { algorithm := .rsa "RSA-OAEP" "SHA-1" m,
           keyUsages := ["decrypt", "unwrapKey", "encrypt", "wrapKey"], extractable := ext }
  | "RSA-OAEP-256" => do
    let m ← getModulusLengthOption input
    pure { algorithm := .rsa "RSA-OAEP" "SHA-256" m,
           keyUsages := ["decrypt", "unwrapKey", "encrypt", "wrapKey"], extractable := ext }
  | "RSA-OAEP-384" => do
    let m ← getModulusLengthOption input
    pure { algorithm := .rsa "RSA-OAEP" "SHA-384" m,
           keyUsages := ["decrypt", "unwrapKey", "encrypt", "wrapKey"], extractable := ext }
  | "RSA-OAEP-512" => do
    let m ← getModulusLengthOption input
    pure { algorithm := .rsa "RSA-OAEP" "SHA-512" m,
           keyUsages := ["decrypt", "unwrapKey", "encrypt", "wrapKey"], extractable := ext }
  | "ES256" => .ok { algorithm := .ec "ECDSA" "P-256", keyUsages := ["sign", "verify"], extractable := ext }
  | "ES384" => .ok { algorithm := .ec "ECDSA" "P-384", keyUsages := ["sign", "verify"], extractable := ext }
  | "ES512" => .ok { algorithm := .ec "ECDSA" "P-521", keyUsages := ["sign", "verify"], extractable := ext }
  | "EdDSA" =>
    match input.crv.getD "Ed25519" with
    | "Ed25519" => .ok { algorithm := .okp "Ed25519", keyUsages := ["sign", "verify"], extractable := ext }
    | "Ed448" => .ok { algorithm := .okp "Ed448", keyUsages := ["sign", "verify"], extractable := ext }
    | _ => .error .invalidCrv
  | "ECDH-ES" | "ECDH-ES+A128KW" | "ECDH-ES+A192KW" | "ECDH-ES+A256KW" =>
    match input.crv.getD "P-256" with
    | "P-256" => .ok { algorithm := .ec "ECDH" "P-256", keyUsages := ["deriveKey", "deriveBits"], extractable := ext }
    | "P-384" => .ok { algorithm := .ec "ECDH" "P-384", keyUsages := ["deriveKey", "deriveBits"], extractable := ext }
    | "P-521" => .ok { algorithm := .ec "ECDH" "P-521", keyUsages := ["deriveKey", "deriveBits"], extractable := ext }
    | "X25519" => .ok { algorithm := .okp "X25519", keyUsages := ["deriveKey", "deriveBits"], extractable := ext }
    | "X448" => .ok { algorithm := .okp "X448", keyUsages := ["deriveKey", "deriveBits"], extractable := ext }
    | _ => .error .invalidCrv
  | _ => .error .unsupportedAlg

/-- The ten RSA algorithm identifiers of the dispatch table. -/
def rsaAlgs : List String :=
  ["PS256", "PS384", "PS512", "RS256", "RS384", "RS512",
   "RSA-OAEP", "RSA-OAEP-256", "RSA-OAEP-384", "RSA-OAEP-512"]

/-- A `modulusLength` option value the source rejects: a non-number, or a
number below 2048. -/
def jsOptBadModulus : JsOpt → Bool
  | .num n => decide (n < 2048)
  | .other => true

/-- Comparison `bytes[i] < n` with JavaScript out-of-range semantics: an
out-of-range `Uint8Array` read yields `undefined`, and `undefined < n` is
false. -/
def jsByteLt (b : Option Nat) (n : Nat) : Bool :=
  match b with
  | some v => decide (v < n)
  | none => false

/-- Comparison `bytes[i] >= n` with JavaScript out-of-range semantics
(`undefined >= n` is false). -/
def jsByteGe (b : Option Nat) (n : Nat) : Bool :=
  match b with
  | some v => decide (n ≤ v)
  | none => false

/-- Bit mask `bytes[i] & m` with JavaScript out-of-range semantics
(`undefined & m` is `ToInt32(NaN) & m = 0`). -/
def jsByteAnd (b : Option Nat) (m : Nat) : Nat :=
  match b with
  | some v => v &&& m
  | none => 0

/-- The result record of `parseElement`:
`{ byteLength, contents, raw }` over byte lists (subarrays become
`drop`/`take`, which clamp exactly like `Uint8Array.prototype.subarray`). -/
structure ParsedElement where
  byteLength : Nat
  contents : List Nat
  raw : List Nat
deriving DecidableEq, Repr

/-- Position after the multi-byte-tag loop of `parseElement`
(`while (bytes[position]! >= 0x80) position++` plus the loop body's tag
arithmetic, whose accumulated value the function never uses).  The fuel is
called with `bytes.length + 1`, an upper bound on the iterations the
JavaScript loop can make, since the guard is false on every out-of-range
read. -/
def tagLoopPos (bytes : List Nat) : Nat → Nat → Nat
  | 0, position => position
  | fuel + 1, position =>
    if jsByteGe (bytes.get? position) 0x80 then tagLoopPos bytes fuel (position + 1)
    else position

/-- Accumulates the long-form length octets of `parseElement`
(`length = length * 256 + bytes[position]!` over `numberOfDigits`
iterations).  An out-of-range read is modelled as the octet 0; in JavaScript
it would poison the length with `NaN`, but both cases lie outside well-formed
DER and the theorems below always pin the parsed structure by hypothesis. -/
def lengthDigits (bytes : List Nat) : Nat → Nat → Nat → Nat
  | _, 0, acc => acc
  | position, k + 1, acc =>
    lengthDigits bytes (position + 1) k (acc * 256 + (bytes.get? position).getD 0)

/-- Embeds `parseElement` (`src/unnamed/part_002`, lines 227-291): a DER
tag/length/value walk supporting multi-byte tags and long-form lengths.
Faithfulness notes:
* the parsed tag value is computed by the source but never used, so only the
  position advance of the tag phase is kept;
* the source's indefinite-length branch `else if (length === 0x80)` compares
  the local `length`, which is still 0 at that point, so the branch is dead
  code: a leading length octet `>= 0x80` always takes the long-form branch,
  exactly as reproduced here. -/
def parseElement (bytes : List Nat) : ParsedElement :=
  let tag := jsByteAnd (bytes.get? 0) 0x1f
  let position := if tag = 0x1f then tagLoopPos bytes (bytes.length + 1) 1 + 1 else 1
  if jsByteLt (bytes.get? position) 0x80 then
    let length := (bytes.get? position).getD 0
    let byteLength := position + 1 + length
    { byteLength
      contents := (bytes.drop (position + 1)).take length
      raw := bytes.take byteLength }
  else
    let numberOfDigits := jsByteAnd (bytes.get? position) 0x7f
    let length := lengthDigits bytes (position + 1) numberOfDigits 0
    let byteLength := position + 1 + numberOfDigits + length
    { byteLength
      contents := (bytes.drop (position + 1 + numberOfDigits)).take length
      raw := bytes.take byteLength }

/-- The loop body of `getElement` with explicit fuel; each parsed element
consumes `byteLength ≥ 2` bytes (tag octet plus at least one length octet), so
`seq.length + 1` units of fuel are an upper bound on the iterations of the
JavaScript `while (next < seq.length)` loop. -/
def getElementGo (seq : List Nat) : Nat → Nat → List ParsedElement
  | 0, _ => []
  | fuel + 1, next =>
    if next < seq.length then
      let nextPart := parseElement (seq.drop next)
      nextPart :: getElementGo seq fuel (next + nextPart.byteLength)
    else []

/-- Embeds `getElement` (`src/unnamed/part_002`, lines 215-225): parses the
consecutive elements of a DER SEQUENCE body. -/
def getElement (seq : List Nat) : List ParsedElement :=
  getElementGo seq (seq.length + 1) 0

/-- The base64 alphabet. -/
def base64Chars : List Char :=
  "ABCDEFGHIJKLMNOPQRSTUVWXYZabcdefghijklmnopqrstuvwxyz0123456789+/".data

/-- The base64 digit for a 6-bit value. -/
def b64Char (n : Nat) : Char :=
  base64Chars.getD n 'A'

/-- Modelled from the spec: `uint8ArrayToBase64` from `@protokoll/core` (not
under `src/`), the standard base64 encoding of a byte sequence with `=`
padding. -/
def uint8ArrayToBase64 : List Nat → String
  | [] => ""
  | [a] =>
    String.mk [b64Char (a / 4), b64Char (a % 4 * 16), '=', '=']
  | [a, b] =>
    String.mk [b64Char (a / 4), b64Char (a % 4 * 16 + b / 16), b64Char (b % 16 * 4), '=']
  | a :: b :: c :: rest =>
    String.mk [b64Char (a / 4), b64Char (a % 4 * 16 + b / 16),
      b64Char (b % 16 * 4 + c / 64), b64Char (c % 64)] ++ uint8ArrayToBase64 rest

/-- Embeds `spkiFromX509` (`src/unnamed/part_002`, lines 293-301): unwrap the
outer Certificate SEQUENCE, take its first element (`tbsCertificate`), parse
that element's children, and return the base64 of the raw bytes of the child
at index 6 when the first child's first raw byte is `0xA0` (an explicit
version tag) and at index 5 otherwise.  The JavaScript dereferences
(`[0]!`, the `@ts-expect-error` index) throw a `TypeError` when the element
lists are too short; those runtime failures are the `none` cases. -/
def spkiFromX509 (buf : List Nat) : Option String :=
  match getElement (parseElement buf).contents with
  | [] => none
  | element :: _ =>
    let tbsCertificate := getElement element.contents
    match tbsCertificate with
    | [] => none
    | first :: _ =>
      match tbsCertificate.get? (if first.raw.get? 0 = some 0xa0 then 6 else 5) with
      | none => none
      | some spki => some (uint8ArrayToBase64 spki.raw)

/-- A well-formed JWT payload used to exercise the signed validation path:
it carries `vp_token`, `presentation_submission`, a `state`, and the members
`iss`/`aud`/`exp` the signed path requires. -/
def witJson : JsonValue :=
  .obj [("vp_token", .str "t"), ("presentation_submission", .str "ps"),
    ("state", .str "sA"), ("iss", .str "i"), ("aud", .str "a"), ("exp", .num 1)]

/-- The response parameters that parsing `witJson` yields. -/
def witParams : JarmResponseParams :=
  { vp_token := "t", presentation_submission := some (.str "ps"), state := some "sA",
    iss := some "i", aud := some "a", exp := some 1, nonce := none }

/-- An authorization request whose `state` matches `witJson`. -/
def witReqOk : AuthRequestParams :=
  { state := some "sA", response_mode := none, client_id := "c",
    response_type := "vp_token", client_metadata := .obj [] }

/-- An authorization request whose `state` differs from `witJson`. -/
def witReqMismatch : AuthRequestParams :=
  { state := some "sB", response_mode := none, client_id := "c",
    response_type := "vp_token", client_metadata := .obj [] }

/-- JOSE oracles for a response whose header carries a `kid`, whose payload is
`witJson`, whose decryption yields a JWS-shaped plaintext, and whose signature
verifies. -/
def witJose : JoseOps :=
  { decodeProtectedHeader := fun _ => { kid := some "k" }
    decodeJwt := fun _ => witJson
    decryptCompact := fun _ _ => .ok "x.y.z"
    verifyJwt := fun _ _ => .ok () }

/-- A context whose request lookup returns the matching-state request. -/
def witCtxOk : JarmCtx :=
  { jose := witJose
    openid4vp := { getParams := fun _ => .ok witReqOk }
    jsonParse := fun _ => .error .capabilityFailure }

/-- A context whose request lookup returns a request with a different state. -/
def witCtxMismatch : JarmCtx :=
  { jose := witJose
    openid4vp := { getParams := fun _ => .ok witReqMismatch }
    jsonParse := fun _ => .error .capabilityFailure }

/-- A context whose protected-header decode finds no `kid`. -/
def witCtxNoKid : JarmCtx :=
  { jose := { witJose with decodeProtectedHeader := fun _ => { kid := none } }
    openid4vp := { getParams := fun _ => .ok witReqOk }
    jsonParse := fun _ => .error .capabilityFailure }

/-- An authorization-server error response body. -/
def witErrJson : JsonValue := .obj [("error", .str "access_denied")]

/-- A context whose JWT payload decodes to the error response `witErrJson`. -/
def witCtxErr : JarmCtx :=
  { jose := { witJose with decodeJwt := fun _ => witErrJson }
    openid4vp := { getParams := fun _ => .ok witReqOk }
    jsonParse := fun _ => .error .capabilityFailure }

/-- A JWT payload lacking the `iss` member. -/
def witJsonNoIss : JsonValue :=
  .obj [("vp_token", .str "t"), ("aud", .str "a"), ("exp", .num 1)]

/-- A context whose JWT payload decodes to `witJsonNoIss`. -/
def witCtxNoIss : JarmCtx :=
  { jose := { witJose with decodeJwt := fun _ => witJsonNoIss }
    openid4vp := { getParams := fun _ => .ok witReqOk }
    jsonParse := fun _ => .error .capabilityFailure }

/-- The validation result of running `witCtxOk` on the bare JWS `"a.b.c"`. -/
def witResultSigned : ValidatedJarmResponse :=
  { authRequestParams := witReqOk, authResponseParams := witParams, type := "signed" }

/-- A minimal DER certificate: `SEQUENCE { SEQUENCE { [0]{0A}, 02 01 01, ...,
02 01 06 } }` — a tbsCertificate with seven children whose first child's
leading byte is the explicit version tag `0xA0`, so the SPKI heuristic picks
index 6, the element `02 01 06`. -/
def witCertA0 : List Nat :=
  [0x30, 0x17, 0x30, 0x15,
   0xA0, 0x01, 0x0A,  0x02, 0x01, 0x01,  0x02, 0x01, 0x02,  0x02, 0x01, 0x03,
   0x02, 0x01, 0x04,  0x02, 0x01, 0x05,  0x02, 0x01, 0x06]

/-- JOSE oracles for a JWE whose own protected header carries a `kid` but
whose decrypted JWS plaintext's protected header does not. -/
def witJoseKidOnJweOnly : JoseOps :=
  { decodeProtectedHeader := fun s =>
      if s = "a.b.c.d.e" then { kid := some "k" } else { kid := none }
    decodeJwt := fun _ => witJson
    decryptCompact := fun _ _ => .ok "x.y.z"
    verifyJwt := fun _ _ => .ok () }

/-- A context exercising the signed-after-decryption path with a missing JWS
`kid`: decryption of `"a.b.c.d.e"` succeeds and yields the JWS `"x.y.z"`,
whose header lacks a `kid`. -/
def witCtxJweNoJwsKid : JarmCtx :=
  { jose := witJoseKidOnJweOnly
    openid4vp := { getParams := fun _ => .ok witReqOk }
    jsonParse := fun _ => .error .capabilityFailure }

/-- A response that is a JWE whose decryption succeeds with a JWS plaintext
makes the gathering phase run exactly the signed branch on that plaintext,
starting from the decryption trace. -/
theorem jarmGatherParams_signed_jwe (ctx : JarmCtx) (response pt : String)
    (tr0 : List Step)
    (h1 : isJwe response = true)
    (hdec : decryptJarmAuthResponse ctx response [] = (.ok pt, tr0))
    (h2 : isJws pt = true) :
    jarmGatherParams ctx response = jarmSignedBranch ctx pt true tr0 := by
  unfold jarmGatherParams
  rw [h1]
  simp [hdec, h2]

/-- A successful decryption appends exactly the `decryptCompact` marker to
the trace. -/
theorem decryptJarmAuthResponse_ok_trace (ctx : JarmCtx) (response pt : String)
    (tr tr' : List Step)
    (h : decryptJarmAuthResponse ctx response tr = (.ok pt, tr')) :
    tr' = tr ++ [Step.decryptCompact] := by
  unfold decryptJarmAuthResponse at h
  dsimp only at h
  split at h
  · simp at h
  · split at h
    · simp at h
    · simp at h
      exact h.2.symm

/-- A response that is not a JWE but is a JWS makes the gathering phase run
exactly the signed branch on the response itself with an empty trace. -/
theorem jarmGatherParams_signed (ctx : JarmCtx) (response : String)
    (h1 : isJwe response = false) (h2 : isJws response = true) :
    jarmGatherParams ctx response = jarmSignedBranch ctx response false [] := by
  unfold jarmGatherParams
  simp [h1, h2]

/-- A response that is neither a JWE nor a JWS makes the gathering phase fail
with `notSignedOrEncrypted` and an empty trace. -/
theorem jarmGatherParams_notSignedOrEncrypted (ctx : JarmCtx) (response : String)
    (h1 : isJwe response = false) (h2 : isJws response = false) :
    jarmGatherParams ctx response = (.error .notSignedOrEncrypted, []) := by
  unfold jarmGatherParams
  simp [h1, h2]

/-- The signed branch only succeeds with the encrypted flag it was given and
the signed flag set. -/
theorem jarmSignedBranch_ok (ctx : JarmCtx) (dec : String) (e : Bool) (tr : List Step)
    (enc signed : Bool) (p : JarmResponseParams) (r : AuthRequestParams) (tr' : List Step)
    (h : jarmSignedBranch ctx dec e tr = (.ok (enc, signed, p, r), tr')) :
    enc = e ∧ signed = true := by
  unfold jarmSignedBranch at h
  dsimp only at h
  split at h
  · simp at h
  · split at h
    · simp at h
    · split at h
      · simp at h
      · split at h
        · simp at h
        · simp at h
          exact ⟨h.1.1.symm, h.1.2.1⟩

/-- The encrypted-only branch only succeeds with the encrypted flag it was
given and the signed flag cleared. -/
theorem jarmEncryptedOnlyBranch_ok (ctx : JarmCtx) (dec : String) (e : Bool) (tr : List Step)
    (enc signed : Bool) (p : JarmResponseParams) (r : AuthRequestParams) (tr' : List Step)
    (h : jarmEncryptedOnlyBranch ctx dec e tr = (.ok (enc, signed, p, r), tr')) :
    enc = e ∧ signed = false := by
  unfold jarmEncryptedOnlyBranch at h
  dsimp only at h
  split at h
  · simp at h
  · split at h
    · simp at h
    · split at h
      · simp at h
      · simp at h
        exact ⟨h.1.1.symm, h.1.2.1⟩

/-- A response that is not a JWE is processed as its own plaintext. -/
theorem jarmDecryptedOf_not_jwe (ctx : JarmCtx) (response : String)
    (h : isJwe response = false) : jarmDecryptedOf ctx response = response := by
  unfold jarmDecryptedOf
  simp [h]

/-- When the gathering phase succeeds, its two flags are exactly the envelope
detections of the source (`isJwe` on the input, `isJws` on the plaintext), and
at least one of them is set. -/
theorem jarmGatherParams_flags (ctx : JarmCtx) (response : String) (enc signed : Bool)
    (p : JarmResponseParams) (r : AuthRequestParams) (tr : List Step)
    (hg : jarmGatherParams ctx response = (.ok (enc, signed, p, r), tr)) :
    enc = isJwe response ∧ signed = isJws (jarmDecryptedOf ctx response)
      ∧ (enc = true ∨ signed = true) := by
  unfold jarmGatherParams at hg
  unfold jarmDecryptedOf
  cases hjwe : isJwe response with
  | false =>
    simp only [hjwe] at hg ⊢
    simp only [Bool.false_eq_true, if_false, ite_false] at hg
    cases hjws : isJws response with
    | false =>
      simp [hjws] at hg
    | true =>
      simp only [hjws, Bool.not_true, Bool.not_false, Bool.true_and, Bool.and_false,
        Bool.false_eq_true, if_false, if_true, ite_true, ite_false] at hg
      have := jarmSignedBranch_ok ctx response false [] enc signed p r tr hg
      simp [hjws, this.1, this.2]
  | true =>
    simp only [hjwe] at hg ⊢
    simp only [if_true, ite_true] at hg
    rcases hdec : decryptJarmAuthResponse ctx response [] with ⟨res, tr0⟩
    rw [hdec] at hg
    cases res with
    | error e =>
      simp at hg
    | ok pt =>
      simp only [Bool.not_true, Bool.false_and, Bool.false_eq_true, if_false, ite_false] at hg
      cases hjws : isJws pt with
      | true =>
        simp only [hjws, if_true, ite_true] at hg
        have := jarmSignedBranch_ok ctx pt true tr0 enc signed p r tr hg
        simp [hdec, hjws, this.1, this.2]
      | false =>
        simp only [hjws, Bool.false_eq_true, if_false, ite_false] at hg
        have := jarmEncryptedOnlyBranch_ok ctx pt true tr0 enc signed p r tr hg
        simp [hdec, hjws, this.1, this.2]

/-- Parsing appends at most the `schemaParse` marker to the trace. -/
theorem parseJarmAuthResponseParams_trace
    (schema : JsonValue → Except JarmError JarmResponseParams)
    (j : JsonValue) (tr : List Step) :
    (parseJarmAuthResponseParams schema j tr).2 = tr
      ∨ (parseJarmAuthResponseParams schema j tr).2 = tr ++ [Step.schemaParse] := by
  unfold parseJarmAuthResponseParams
  split
  · exact Or.inl rfl
  · exact Or.inr rfl

/-- A `modulusLength` option that is a non-number or a number below 2048 is
rejected. -/
theorem getModulusLengthOption_bad (opts : GenerateKeyPairOptions) (v : JsOpt)
    (hv : opts.modulusLength = some v) (hb : jsOptBadModulus v = true) :
    getModulusLengthOption opts = .error .invalidModulusLength := by
  unfold getModulusLengthOption
  rw [hv]
  cases v with
  | num n =>
    simp only [jsOptBadModulus, decide_eq_true_eq] at hb
    simp [Option.getD, hb]
  | other => simp [Option.getD]

/-- An absent `modulusLength` option defaults to 2048. -/
theorem getModulusLengthOption_default (opts : GenerateKeyPairOptions)
    (hn : opts.modulusLength = none) : getModulusLengthOption opts = .ok 2048 := by
  unfold getModulusLengthOption
  rw [hn]
  simp [Option.getD]

/-- C1: For every envelope type, if the state recovered from the authorization
response differs from the state of the authorization request fetched via
`openid4vp.authRequest.getParams`, then
`jarmAuthResponseDirectPostJwtValidate` (and
`jarmAuthResponseEncryptedValidate`) throws the StateMismatch error and
returns no result.  The gathering hypothesis quantifies over all three
envelope shapes at once (its flags are arbitrary). -/
theorem jarmStateMismatch_always_rejected (ctx : JarmCtx) (response : String)
    (enc signed : Bool) (p : JarmResponseParams) (r : AuthRequestParams) (tr : List Step)
    (hg : jarmGatherParams ctx response = (.ok (enc, signed, p, r), tr))
    (hne : r.state ≠ p.state) :
    jarmAuthResponseDirectPostJwtValidate ctx response
        = (.error .stateMismatch, tr ++ [Step.validateParams])
      ∧ jarmAuthResponseEncryptedValidate r.state p = .error .stateMismatch := by
  constructor
  · unfold jarmAuthResponseDirectPostJwtValidate
    rw [hg]
    simp [jarmAuthResponseDirectPostValidateParams, hne]
  · simp [jarmAuthResponseEncryptedValidate, hne]

/-- C1 witness: a signed response whose state `sA` differs from the fetched
request's state `sB` is rejected with `stateMismatch`. -/
theorem jarmStateMismatch_always_rejected_witness :
    jarmAuthResponseDirectPostJwtValidate witCtxMismatch "a.b.c"
        = (.error .stateMismatch,
           [Step.schemaParse, Step.getParams, Step.verifyJwt] ++ [Step.validateParams])
      ∧ jarmAuthResponseEncryptedValidate witReqMismatch.state witParams
        = .error .stateMismatch :=
  jarmStateMismatch_always_rejected witCtxMismatch "a.b.c" false true witParams
    witReqMismatch [Step.schemaParse, Step.getParams, Step.verifyJwt] rfl (by decide)

/-- C2: For every input response string that is neither a JWE (5 base64url
segments) nor a JWS (3 base64url segments),
`jarmAuthResponseDirectPostJwtValidate` throws the NotSignedOrEncrypted error
without calling decryption, signature verification, or parameter validation:
the capability trace is empty. -/
theorem jarmNotSignedOrEncrypted_rejected (ctx : JarmCtx) (response : String)
    (h1 : isJwe response = false) (h2 : isJws response = false) :
    jarmAuthResponseDirectPostJwtValidate ctx response
      = (.error .notSignedOrEncrypted, []) := by
  unfold jarmAuthResponseDirectPostJwtValidate
  rw [jarmGatherParams_notSignedOrEncrypted ctx response h1 h2]

/-- C2 witness: the non-JOSE string `"hello"` is rejected with an empty
trace. -/
theorem jarmNotSignedOrEncrypted_rejected_witness :
    jarmAuthResponseDirectPostJwtValidate witCtxOk "hello"
      = (.error .notSignedOrEncrypted, []) :=
  jarmNotSignedOrEncrypted_rejected witCtxOk "hello" rfl rfl

/-- C3: Whenever `jarmAuthResponseDirectPostJwtValidate` returns successfully,
the returned type field is exactly: "signed encrypted" if the input was a JWE
whose decrypted plaintext is a JWS; "encrypted" if the input was a JWE whose
plaintext is not a JWS; and "signed" if the input was a bare JWS; no other
value is ever returned (each of the three equations is an iff, and the three
conditions are exhaustive on success). -/
theorem jarmValidate_type_classification (ctx : JarmCtx) (response : String)
    (result : ValidatedJarmResponse) (tr : List Step)
    (h : jarmAuthResponseDirectPostJwtValidate ctx response = (.ok result, tr)) :
    (result.type = "signed encrypted"
        ↔ isJwe response = true ∧ isJws (jarmDecryptedOf ctx response) = true)
      ∧ (result.type = "encrypted"
        ↔ isJwe response = true ∧ isJws (jarmDecryptedOf ctx response) = false)
      ∧ (result.type = "signed"
        ↔ isJwe response = false ∧ isJws response = true) := by
  unfold jarmAuthResponseDirectPostJwtValidate at h
  rcases hg : jarmGatherParams ctx response with ⟨res, tr0⟩
  rw [hg] at h
  cases res with
  | error e => simp at h
  | ok q =>
    obtain ⟨enc, signed, p, r⟩ := q
    dsimp only at h
    cases hv : jarmAuthResponseDirectPostValidateParams r p with
    | error e => rw [hv] at h; simp at h
    | ok u =>
      rw [hv] at h
      simp only [Prod.mk.injEq, Except.ok.injEq] at h
      obtain ⟨h1, h2⟩ := h
      subst h1
      obtain ⟨hf1, hf2, hf3⟩ := jarmGatherParams_flags ctx response enc signed p r tr0 hg
      cases enc with
      | false =>
        rw [jarmDecryptedOf_not_jwe ctx response hf1.symm] at hf2
        cases signed with
        | true => simp [← hf1, ← hf2]
        | false => rcases hf3 with hc | hc <;> simp at hc
      | true =>
        cases signed with
        | true => simp [← hf1, ← hf2]
        | false => simp [← hf1, ← hf2]

/-- C3 witness: the bare JWS `"a.b.c"` validates to type "signed", and the
three classification equivalences hold at that run. -/
theorem jarmValidate_type_classification_witness :
    (witResultSigned.type = "signed encrypted"
        ↔ isJwe "a.b.c" = true ∧ isJws (jarmDecryptedOf witCtxOk "a.b.c") = true)
      ∧ (witResultSigned.type = "encrypted"
        ↔ isJwe "a.b.c" = true ∧ isJws (jarmDecryptedOf witCtxOk "a.b.c") = false)
      ∧ (witResultSigned.type = "signed"
        ↔ isJwe "a.b.c" = false ∧ isJws "a.b.c" = true) :=
  jarmValidate_type_classification witCtxOk "a.b.c" witResultSigned
    [Step.schemaParse, Step.getParams, Step.verifyJwt, Step.validateParams] rfl

/-- C4: For every response-parameter object that matches the error-params
shape (carries an `error` member), `parseJarmAuthResponseParams` throws
`JarmReceivedErrorResponse` before any structural schema parsing is attempted
(for every schema, and without appending the `schemaParse` marker), so
`jarmAuthResponseDirectPostJwtValidate` surfaces ReceivedErrorResponse and
never validates such a response (the trace stays empty). -/
theorem jarmErrorParams_rejected_before_schema
    (schema : JsonValue → Except JarmError JarmResponseParams)
    (j : JsonValue) (h : isErrorParams j = true) :
    (∀ tr, parseJarmAuthResponseParams schema j tr = (.error .receivedErrorResponse, tr))
      ∧ ∀ ctx response, isJwe response = false → isJws response = true →
          ctx.jose.decodeJwt response = j →
          jarmAuthResponseDirectPostJwtValidate ctx response
            = (.error .receivedErrorResponse, []) := by
  have hp : ∀ (schema' : JsonValue → Except JarmError JarmResponseParams) (tr : List Step),
      parseJarmAuthResponseParams schema' j tr = (.error .receivedErrorResponse, tr) := by
    intro schema' tr
    unfold parseJarmAuthResponseParams
    simp [h]
  refine ⟨hp schema, ?_⟩
  intro ctx response h1 h2 hj
  unfold jarmAuthResponseDirectPostJwtValidate
  rw [jarmGatherParams_signed ctx response h1 h2]
  unfold jarmSignedBranch
  dsimp only
  rw [hj, hp]

/-- C4 witness: the error body `{"error": "access_denied"}` short-circuits
both the parser and the whole validation with `receivedErrorResponse` and no
recorded capability step. -/
theorem jarmErrorParams_rejected_before_schema_witness :
    parseJarmAuthResponseParams vJarmDirectPostJwtParams witErrJson []
        = (.error .receivedErrorResponse, [])
      ∧ jarmAuthResponseDirectPostJwtValidate witCtxErr "a.b.c"
        = (.error .receivedErrorResponse, []) :=
  ⟨(jarmErrorParams_rejected_before_schema vJarmDirectPostJwtParams witErrJson rfl).1 [],
   (jarmErrorParams_rejected_before_schema vJarmDirectPostJwtParams witErrJson rfl).2
     witCtxErr "a.b.c" rfl rfl rfl⟩

/-- C5: For every JWE response whose protected header lacks the `kid` field
(absent or empty, per JavaScript truthiness), decryption fails:
`decryptJarmAuthResponse` throws the JWE-missing-kid validation error and
`ctx.jose.jwe.decryptCompact` is never invoked — the trace of the whole
validation stays empty. -/
theorem jarmJweMissingKid_rejected_without_decrypt (ctx : JarmCtx) (response : String)
    (henc : isJwe response = true)
    (hkid : jsFalsyKid (ctx.jose.decodeProtectedHeader response).kid = true) :
    decryptJarmAuthResponse ctx response [] = (.error .jweMissingKid, [])
      ∧ jarmAuthResponseDirectPostJwtValidate ctx response
        = (.error .jweMissingKid, []) := by
  have hdec : decryptJarmAuthResponse ctx response [] = (.error .jweMissingKid, []) := by
    unfold decryptJarmAuthResponse
    simp [hkid]
  refine ⟨hdec, ?_⟩
  unfold jarmAuthResponseDirectPostJwtValidate jarmGatherParams
  rw [henc]
  simp [hdec]

/-- C5 witness: the JWE `"a.b.c.d.e"` under a context whose header decode
finds no `kid` is rejected with `jweMissingKid` and an empty trace. -/
theorem jarmJweMissingKid_rejected_without_decrypt_witness :
    decryptJarmAuthResponse witCtxNoKid "a.b.c.d.e" [] = (.error .jweMissingKid, [])
      ∧ jarmAuthResponseDirectPostJwtValidate witCtxNoKid "a.b.c.d.e"
        = (.error .jweMissingKid, []) :=
  jarmJweMissingKid_rejected_without_decrypt witCtxNoKid "a.b.c.d.e" rfl rfl

/-- C6: On every signed path (bare JWS, or JWS obtained by decrypting a JWE)
the JWS payload is parsed against the schema with `iss`, `aud` and `exp`
required: if any of the three members is absent the validation throws a parse
error (first conjunct at the schema; second conjunct through the whole
validation, with the entry hypothesis covering both ways into the signed
branch); on the encrypted-only path these members are not required: the plain
schema accepts an object lacking all three (third conjunct). -/
theorem jarmSignedPath_requires_iss_aud_exp (j : JsonValue)
    (hmiss : (jsonGet j "iss").isSome = false ∨ (jsonGet j "aud").isSome = false
      ∨ (jsonGet j "exp").isSome = false) :
    vRequired ["iss", "aud", "exp"] vJarmDirectPostJwtParams j = .error .schemaParseError
      ∧ (∀ ctx response decrypted tr0,
          ((isJwe response = false ∧ isJws response = true
              ∧ decrypted = response ∧ tr0 = [])
            ∨ (isJwe response = true
              ∧ decryptJarmAuthResponse ctx response [] = (.ok decrypted, tr0)
              ∧ isJws decrypted = true)) →
          isErrorParams j = false →
          ctx.jose.decodeJwt decrypted = j →
          jarmAuthResponseDirectPostJwtValidate ctx response
            = (.error .schemaParseError, tr0 ++ [Step.schemaParse]))
      ∧ vJarmDirectPostJwtParams (JsonValue.obj [("vp_token", JsonValue.str "t")])
        = .ok { vp_token := "t", presentation_submission := none, state := none,
                iss := none, aud := none, exp := none, nonce := none } := by
  have hall : (["iss", "aud", "exp"].all (fun k => (jsonGet j k).isSome)) = false := by
    rcases hmiss with hc | hc | hc <;>
      simp [List.all_cons, List.all_nil, hc]
  have hreq : vRequired ["iss", "aud", "exp"] vJarmDirectPostJwtParams j
      = .error .schemaParseError := by
    unfold vRequired
    rw [hall]
    simp
  refine ⟨hreq, ?_, rfl⟩
  intro ctx response decrypted tr0 hentry herr hj
  have hparse : ∀ tr, parseJarmAuthResponseParams
      (vRequired ["iss", "aud", "exp"] vJarmDirectPostJwtParams) j tr
      = (.error .schemaParseError, tr ++ [Step.schemaParse]) := by
    intro tr
    unfold parseJarmAuthResponseParams
    rw [herr]
    simp [hreq]
  rcases hentry with ⟨h1, h2, rfl, rfl⟩ | ⟨h1, hdec, h2⟩
  · unfold jarmAuthResponseDirectPostJwtValidate
    rw [jarmGatherParams_signed ctx decrypted h1 h2]
    unfold jarmSignedBranch
    dsimp only
    rw [hj, hparse]
  · unfold jarmAuthResponseDirectPostJwtValidate
    rw [jarmGatherParams_signed_jwe ctx response decrypted tr0 h1 hdec h2]
    unfold jarmSignedBranch
    dsimp only
    rw [hj, hparse]

/-- C6 witness: a payload lacking `iss` fails the strict schema; the bare JWS
`"a.b.c"` carrying it fails with a parse error, and so does the JWE
`"a.b.c.d.e"` whose decryption yields the JWS `"x.y.z"` carrying it. -/
theorem jarmSignedPath_requires_iss_aud_exp_witness :
    vRequired ["iss", "aud", "exp"] vJarmDirectPostJwtParams witJsonNoIss
        = .error .schemaParseError
      ∧ jarmAuthResponseDirectPostJwtValidate witCtxNoIss "a.b.c"
        = (.error .schemaParseError, [] ++ [Step.schemaParse])
      ∧ jarmAuthResponseDirectPostJwtValidate witCtxNoIss "a.b.c.d.e"
        = (.error .schemaParseError, [Step.decryptCompact] ++ [Step.schemaParse]) :=
  ⟨(jarmSignedPath_requires_iss_aud_exp witJsonNoIss (Or.inl rfl)).1,
   (jarmSignedPath_requires_iss_aud_exp witJsonNoIss (Or.inl rfl)).2.1
     witCtxNoIss "a.b.c" "a.b.c" [] (Or.inl ⟨rfl, rfl, rfl, rfl⟩) rfl rfl,
   (jarmSignedPath_requires_iss_aud_exp witJsonNoIss (Or.inl rfl)).2.1
     witCtxNoIss "a.b.c.d.e" "x.y.z" [Step.decryptCompact]
     (Or.inr ⟨rfl, rfl, rfl⟩) rfl rfl⟩

/-- C7: For every RSA algorithm (PS256/384/512, RS256/384/512, RSA-OAEP and
RSA-OAEP-256/384/512), `generateKeyPair` rejects a `modulusLength` option
that is not a number or is smaller than 2048, and when no `modulusLength` is
supplied the generated RSA algorithm carries the default 2048. -/
theorem generateKeyPair_rsa_modulusLength (alg : String)
    (opts : GenerateKeyPairOptions) (halg : alg ∈ rsaAlgs) :
    (∀ v, opts.modulusLength = some v → jsOptBadModulus v = true →
        generateKeyPair alg opts = .error .invalidModulusLength)
      ∧ (opts.modulusLength = none →
        ∃ name hash usages, generateKeyPair alg opts
          = .ok { algorithm := .rsa name hash 2048, keyUsages := usages,
                  extractable := opts.extractable.getD false }) := by
  unfold rsaAlgs at halg
  fin_cases halg <;>
    refine ⟨fun v hv hb => ?_, fun hn => ?_⟩ <;>
    unfold generateKeyPair <;>
    first
      | (rw [getModulusLengthOption_bad opts v hv hb]; rfl)
      | (rw [getModulusLengthOption_default opts hn]; exact ⟨_, _, _, rfl⟩)

/-- C7 witness: `PS256` with `modulusLength: 1024` is rejected, and `RS256`
without the option generates an RSA algorithm with modulus length 2048. -/
theorem generateKeyPair_rsa_modulusLength_witness :
    generateKeyPair "PS256" { modulusLength := some (.num 1024) }
        = .error .invalidModulusLength
      ∧ ∃ name hash usages, generateKeyPair "RS256" {}
        = .ok { algorithm := .rsa name hash 2048, keyUsages := usages,
                extractable := false } :=
  ⟨(generateKeyPair_rsa_modulusLength "PS256" { modulusLength := some (.num 1024) }
      (by decide)).1 (.num 1024) rfl (by decide),
   (generateKeyPair_rsa_modulusLength "RS256" {} (by decide)).2 rfl⟩

/-- C8 counterexample: the claim "for every private CryptoKey, toPKCS8 throws
a TypeError ('key is not a public key')" fails at a non-extractable private
key, where the extractability check fires first and the thrown TypeError
carries the message 'CryptoKey is not extractable' instead. -/
theorem toPKCS8_nonextractable_counterexample :
    toPKCS8 (fun _ _ => "") { type := "private", extractable := false }
        = .error (.typeError "CryptoKey is not extractable")
      ∧ toPKCS8 (fun _ _ => "") { type := "private", extractable := false }
        ≠ .error (.typeError "key is not a public key") := by
  refine ⟨rfl, fun h => ?_⟩
  have h1 : ExportError.typeError "CryptoKey is not extractable"
      = ExportError.typeError "key is not a public key" := Except.error.inj h
  have h2 : "CryptoKey is not extractable" = "key is not a public key" := by
    injection h1
  exact absurd h2 (by decide)

/-- C8 (amended): `toPKCS8` passes `keyType: 'public'` to the generic export
routine; consequently, for every extractable private CryptoKey it throws a
TypeError ('key is not a public key') instead of producing a PKCS#8 PEM, and
it never succeeds on any key whose type is not 'public'. -/
theorem toPKCS8_requires_public_key (exportKey : String → CryptoKey → String)
    (key : CryptoKey) :
    (key.type = "private" → key.extractable = true →
        toPKCS8 exportKey key = .error (.typeError "key is not a public key"))
      ∧ (∀ pem, toPKCS8 exportKey key = .ok pem → key.type = "public") := by
  constructor
  · intro ht he
    unfold toPKCS8 genericExport
    rw [ht, he]
    simp
  · intro pem hok
    unfold toPKCS8 genericExport at hok
    by_cases hext : key.extractable = true
    · rw [hext] at hok
      by_cases hty : key.type = "public"
      · exact hty
      · simp [hty] at hok
    · simp [Bool.not_eq_true] at hext
      rw [hext] at hok
      simp at hok

/-- C8 witness: an extractable private key draws the 'key is not a public
key' TypeError, and a public key (the only type the export accepts) passes
the type check. -/
theorem toPKCS8_requires_public_key_witness :
    toPKCS8 (fun _ _ => "B64") { type := "private", extractable := true }
        = .error (.typeError "key is not a public key")
      ∧ ({ type := "public", extractable := true } : CryptoKey).type = "public" :=
  ⟨(toPKCS8_requires_public_key (fun _ _ => "B64")
      { type := "private", extractable := true }).1 rfl rfl,
   (toPKCS8_requires_public_key (fun _ _ => "B64")
      { type := "public", extractable := true }).2
     (formatPEM "B64" ("public".toUpper ++ " KEY")) (by rfl)⟩

/-- C9: For every DER-encoded X.509 certificate, `spkiFromX509` extracts the
SubjectPublicKeyInfo as the tbsCertificate element at index 6 when the first
tbsCertificate element's first raw byte equals `0xA0` (explicit version tag
present), and at index 5 otherwise, returning its base64-encoded raw
bytes. -/
theorem spkiFromX509_extracts_tbs_element (buf : List Nat)
    (tbs : ParsedElement) (rest : List ParsedElement)
    (first : ParsedElement) (ctail : List ParsedElement) (spki : ParsedElement)
    (h1 : getElement (parseElement buf).contents = tbs :: rest)
    (h2 : getElement tbs.contents = first :: ctail)
    (h3 : (first :: ctail).get? (if first.raw.get? 0 = some 0xa0 then 6 else 5)
      = some spki) :
    spkiFromX509 buf = some (uint8ArrayToBase64 spki.raw) := by
  unfold spkiFromX509
  rw [h1]
  dsimp only
  rw [h2]
  dsimp only
  rw [h3]

/-- C9 witness: on a small certificate whose tbsCertificate starts with the
`0xA0` version tag, the seventh child (`02 01 06`) is returned base64
encoded. -/
theorem spkiFromX509_extracts_tbs_element_witness :
    spkiFromX509 witCertA0 = some (uint8ArrayToBase64 [0x02, 0x01, 0x06]) := by
  exact spkiFromX509_extracts_tbs_element witCertA0 _ _ _ _ _ rfl rfl rfl

/-- Whenever the gathering phase runs the signed branch on a plaintext whose
protected header lacks a `kid`, verification is never invoked; and when the
payload parse and the request fetch both succeed, the run fails with the
JWS-missing-kid error right after those two steps. -/
theorem jarmSignedEntry_missingKid (ctx : JarmCtx) (response decrypted : String)
    (enc : Bool) (tr0 : List Step)
    (hg : jarmGatherParams ctx response = jarmSignedBranch ctx decrypted enc tr0)
    (hver0 : Step.verifyJwt ∉ tr0)
    (hkid : jsFalsyKid (ctx.jose.decodeProtectedHeader decrypted).kid = true) :
    Step.verifyJwt ∉ (jarmAuthResponseDirectPostJwtValidate ctx response).2
      ∧ ∀ p r, parseJarmAuthResponseParams
            (vRequired ["iss", "aud", "exp"] vJarmDirectPostJwtParams)
            (ctx.jose.decodeJwt decrypted) tr0 = (.ok p, tr0 ++ [Step.schemaParse]) →
          ctx.openid4vp.getParams p = .ok r →
          jarmAuthResponseDirectPostJwtValidate ctx response
            = (.error .jwsMissingKid, tr0 ++ [Step.schemaParse, Step.getParams]) := by
  constructor
  · unfold jarmAuthResponseDirectPostJwtValidate
    rw [hg]
    unfold jarmSignedBranch
    dsimp only
    rcases hp : parseJarmAuthResponseParams
        (vRequired ["iss", "aud", "exp"] vJarmDirectPostJwtParams)
        (ctx.jose.decodeJwt decrypted) tr0 with ⟨pres, tr1⟩
    have htr1 : tr1 = tr0 ∨ tr1 = tr0 ++ [Step.schemaParse] := by
      have := parseJarmAuthResponseParams_trace
        (vRequired ["iss", "aud", "exp"] vJarmDirectPostJwtParams)
        (ctx.jose.decodeJwt decrypted) tr0
      rw [hp] at this
      simpa using this
    have hver1 : Step.verifyJwt ∉ tr1 := by
      rcases htr1 with rfl | rfl
      · exact hver0
      · simp [List.mem_append, hver0]
    cases pres with
    | error e => simpa using hver1
    | ok p =>
      dsimp only
      cases hgp : ctx.openid4vp.getParams p with
      | error e => simp [List.mem_append, hver1]
      | ok r =>
        rw [hkid]
        simp [List.mem_append, hver1]
  · intro p r hp hgp
    unfold jarmAuthResponseDirectPostJwtValidate
    rw [hg]
    unfold jarmSignedBranch
    dsimp only
    rw [hp]
    dsimp only
    rw [hgp, hkid]
    simp [List.append_assoc]

/-- C10: On every signed path (bare JWS, or JWS obtained by decrypting a
JWE), if the JWS protected header lacks the `kid` field,
`jarmAuthResponseDirectPostJwtValidate` throws the JWS-missing-kid validation
error and `ctx.jose.jws.verifyJwt` is never invoked (first conjunct, for
every parse outcome); the check runs after the payload is parsed and the
auth-request params are fetched but before signature verification: when both
succeed, the trace is exactly the entry's decryption trace followed by
`schemaParse` and `getParams` (second conjunct).  The entry hypothesis covers
both ways into the signed branch. -/
theorem jarmJwsMissingKid_before_verify (ctx : JarmCtx) (response decrypted : String)
    (tr0 : List Step)
    (hentry : (isJwe response = false ∧ isJws response = true
        ∧ decrypted = response ∧ tr0 = [])
      ∨ (isJwe response = true
        ∧ decryptJarmAuthResponse ctx response [] = (.ok decrypted, tr0)
        ∧ isJws decrypted = true))
    (hkid : jsFalsyKid (ctx.jose.decodeProtectedHeader decrypted).kid = true) :
    Step.verifyJwt ∉ (jarmAuthResponseDirectPostJwtValidate ctx response).2
      ∧ ∀ p r, parseJarmAuthResponseParams
            (vRequired ["iss", "aud", "exp"] vJarmDirectPostJwtParams)
            (ctx.jose.decodeJwt decrypted) tr0 = (.ok p, tr0 ++ [Step.schemaParse]) →
          ctx.openid4vp.getParams p = .ok r →
          jarmAuthResponseDirectPostJwtValidate ctx response
            = (.error .jwsMissingKid, tr0 ++ [Step.schemaParse, Step.getParams]) := by
  rcases hentry with ⟨h1, h2, rfl, rfl⟩ | ⟨h1, hdec, h2⟩
  · exact jarmSignedEntry_missingKid ctx decrypted decrypted false []
      (jarmGatherParams_signed ctx decrypted h1 h2) (by simp) hkid
  · have htr0 := decryptJarmAuthResponse_ok_trace ctx response decrypted [] tr0 hdec
    subst htr0
    exact jarmSignedEntry_missingKid ctx response decrypted true ([] ++ [Step.decryptCompact])
      (jarmGatherParams_signed_jwe ctx response decrypted ([] ++ [Step.decryptCompact]) h1 hdec h2)
      (by simp) hkid

/-- C10 witness: the bare JWS `"a.b.c"` under a kid-less header fails with
`jwsMissingKid` on the trace `[schemaParse, getParams]`, and the JWE
`"a.b.c.d.e"` whose decrypted JWS `"x.y.z"` has a kid-less header fails with
`jwsMissingKid` on the trace `[decryptCompact, schemaParse, getParams]`;
`verifyJwt` appears in neither trace. -/
theorem jarmJwsMissingKid_before_verify_witness :
    (Step.verifyJwt ∉ (jarmAuthResponseDirectPostJwtValidate witCtxNoKid "a.b.c").2
      ∧ jarmAuthResponseDirectPostJwtValidate witCtxNoKid "a.b.c"
        = (.error .jwsMissingKid, [] ++ [Step.schemaParse, Step.getParams]))
      ∧ (Step.verifyJwt ∉ (jarmAuthResponseDirectPostJwtValidate witCtxJweNoJwsKid "a.b.c.d.e").2
        ∧ jarmAuthResponseDirectPostJwtValidate witCtxJweNoJwsKid "a.b.c.d.e"
          = (.error .jwsMissingKid,
             [Step.decryptCompact] ++ [Step.schemaParse, Step.getParams])) :=
  ⟨⟨(jarmJwsMissingKid_before_verify witCtxNoKid "a.b.c" "a.b.c" []
        (Or.inl ⟨rfl, rfl, rfl, rfl⟩) rfl).1,
    (jarmJwsMissingKid_before_verify witCtxNoKid "a.b.c" "a.b.c" []
        (Or.inl ⟨rfl, rfl, rfl, rfl⟩) rfl).2 witParams witReqOk rfl rfl⟩,
   ⟨(jarmJwsMissingKid_before_verify witCtxJweNoJwsKid "a.b.c.d.e" "x.y.z"
        [Step.decryptCompact] (Or.inr ⟨rfl, rfl, rfl⟩) rfl).1,
    (jarmJwsMissingKid_before_verify witCtxJweNoJwsKid "a.b.c.d.e" "x.y.z"
        [Step.decryptCompact] (Or.inr ⟨rfl, rfl, rfl⟩) rfl).2 witParams witReqOk rfl rfl⟩⟩
